import Mathlib

/-!
Verification development for the Mikrotik L2TP/IPv6 automation repository.

The Python sources are shallowly embedded as executable Lean definitions:

* `modules/mikrotik_ipv6_config.py` — `addIpv6Address`, `removeIpv6Address`,
  `addressExists`, `findAddressId`;
* `modules/mikrotik_routes.py` — `findRouteId`, `removeIpv6Route`;
* `modules/mikrotik_l2tp_manager.py` — `l2tpAddressStepOk`, `l2tpRouteStepOk`,
  `findL2tpTunnelByName`;
* `modules/mikrotik_interfaces.py` — `parseL2tpServerOutput`;
* `modules/mikrotik_connectivity_tests.py` — `parsePingOutput`, `testMtuIpv6`;
* `mikrotik_l2tp_automation.py` — `loadTunnelMapping`.

Python text handling is modelled over `List Char`: `str.lower` / `str.strip`
are modelled on ASCII (the device replies and configuration files involved are
ASCII), `float` arithmetic is modelled by `Rat` (exact for the decimal values
appearing here), and the specific regular expressions used by the sources are
compiled by hand into deterministic matchers that realise their
leftmost/greedy semantics for those patterns.  The transport layer
(`MikrotikConnection`) is not part of the core; its observable behaviour is
passed in as explicit arguments: the `connected` flag, the text replies of
`execute_command` (as `Option String`, `none` for an absent reply), and the
already-listed device state where a function first queries it.
-/

/-- Lowercase an ASCII letter; model of Python `str.lower` per character. -/
def charLower (c : Char) : Char :=
  if c.toNat ≥ 65 && c.toNat ≤ 90 then Char.ofNat (c.toNat + 32) else c

/-- Model of Python `str.lower` (ASCII). -/
def lowerStr (s : String) : String :=
  ⟨s.data.map charLower⟩

/-- Decides whether `p` is a leading segment of `cs`. -/
def isPre : List Char → List Char → Bool
  | [], _ => true
  | _ :: _, [] => false
  | a :: ps, c :: rest => a == c && isPre ps rest

/-- Decides whether `pat` occurs contiguously somewhere in `cs`;
model of Python `pat in s`. -/
def subMatch (pat : List Char) : List Char → Bool
  | [] => isPre pat []
  | c :: cs => isPre pat (c :: cs) || subMatch pat cs

/-- Model of the Python substring test `pat in s`. -/
def strHasSub (pat s : String) : Bool :=
  subMatch pat.data s.data

/-- Splits a character list at every occurrence of `sep`;
model of Python `s.split(sep)` for a one-character separator. -/
def splitOnChar (sep : Char) : List Char → List (List Char)
  | [] => [[]]
  | c :: rest =>
    let r := splitOnChar sep rest
    if c == sep then [] :: r
    else
      match r with
      | [] => [[c]]
      | h :: t => (c :: h) :: t

/-- Model of `output.split('\n')` (Python line splitting of a CLI reply). -/
def pyLines (s : String) : List String :=
  (splitOnChar '\n' s.data).map fun l => ⟨l⟩

/-- Model of `line.split(',')`. -/
def pySplitComma (s : String) : List String :=
  (splitOnChar ',' s.data).map fun l => ⟨l⟩

/-- Drops trailing ASCII whitespace from a character list. -/
def dropTrailWs (l : List Char) : List Char :=
  (l.reverse.dropWhile Char.isWhitespace).reverse

/-- Strips leading and trailing ASCII whitespace; model of Python `str.strip`. -/
def stripList (l : List Char) : List Char :=
  dropTrailWs (l.dropWhile Char.isWhitespace)

/-- Model of Python `line.strip()` on strings. -/
def pyStrip (s : String) : String :=
  ⟨stripList s.data⟩

/-- Model of Python `line.startswith('#')`. -/
def startsHash (s : String) : Bool :=
  match s.data with
  | '#' :: _ => true
  | _ => false

/-- Model of one parsed entry of `/ipv6 address print`, as produced by
`_parse_ipv6_addresses` in `modules/mikrotik_ipv6_config.py`: the fields that
the existence and removal checks read (`id` and `address`). -/
structure AddrEntry where
  id : String
  address : String
deriving DecidableEq, Repr

/-- Model of `address.split('/')[0] if '/' in address else address`
(normalisation dropping the prefix length) in
`modules/mikrotik_ipv6_config.py`. -/
def hostPart (a : String) : String :=
  ⟨a.data.takeWhile fun c => c != '/'⟩

/-- Model of `MikrotikIPv6Config._address_exists`, given the entries that
`list_ipv6_addresses(interface)` returned for the target interface. -/
def addressExists (existing : List AddrEntry) (address : String) : Bool :=
  existing.any fun e => hostPart e.address == hostPart address

/-- Model of `MikrotikIPv6Config._find_address_id`, given the listed entries. -/
def findAddressId (existing : List AddrEntry) (address : String) : Option String :=
  match existing.find? (fun e => hostPart e.address == hostPart address) with
  | some e => some e.id
  | none => none

/-- Rejection-marker test shared by the configuration modules:
`"syntax error" in output.lower() or "failure" in output.lower()`. -/
def isRejectionReply (out : String) : Bool :=
  strHasSub "syntax error" (lowerStr out) || strHasSub "failure" (lowerStr out)

/-- Reply classification used by `add_ipv6_address`, `remove_ipv6_address`,
`add_ipv6_route` and `remove_ipv6_route`:
`if output and ("syntax error" in output.lower() or "failure" in output.lower()): return False`.
`none` models an absent reply, `some ""` an empty one; both are falsy. -/
def replyOk (reply : Option String) : Bool :=
  match reply with
  | none => true
  | some out => if out == "" then true else !(isRejectionReply out)

/-- Model of `MikrotikIPv6Config.add_ipv6_address`.  `existing` is the state
that `list_ipv6_addresses(interface)` reports, `reply` the device's answer to
the add command.  The result is `(returned success, add command issued)`. -/
def addIpv6Address (connected : Bool) (existing : List AddrEntry) (address : String)
    (reply : Option String) : Bool × Bool :=
  if !connected then (false, false)
  else if addressExists existing address then (true, false)
  else (replyOk reply, true)

/-- Model of `MikrotikIPv6Config.remove_ipv6_address`; result is
`(returned success, remove command issued)`.  An id that is `None` or the
empty string is falsy in `if not address_id`. -/
def removeIpv6Address (connected : Bool) (existing : List AddrEntry) (address : String)
    (reply : Option String) : Bool × Bool :=
  if !connected then (false, false)
  else
    match findAddressId existing address with
    | none => (true, false)
    | some i =>
      if i == "" then (true, false)
      else (replyOk reply, true)

/-- Model of one parsed entry of `/ipv6 route print`, as produced by
`_parse_ipv6_routes` in `modules/mikrotik_routes.py`: the fields read by the
lookup helpers. -/
structure RouteEntry where
  id : String
  dst_address : String
  gateway : String
deriving DecidableEq, Repr

/-- Model of `MikrotikRoutes._find_route_id`: first route whose destination
matches and, when a gateway is given, whose gateway matches too. -/
def findRouteId (routes : List RouteEntry) (dst : String) (gateway : Option String) :
    Option String :=
  match routes.find? (fun r => r.dst_address == dst &&
      (match gateway with
       | none => true
       | some g => r.gateway == g)) with
  | some r => some r.id
  | none => none

/-- Model of `MikrotikRoutes.remove_ipv6_route`; result is
`(returned success, remove command issued)`. -/
def removeIpv6Route (connected : Bool) (routes : List RouteEntry) (dst : String)
    (gateway : Option String) (reply : Option String) : Bool × Bool :=
  if !connected then (false, false)
  else
    match findRouteId routes dst gateway with
    | none => (true, false)
    | some i =>
      if i == "" then (true, false)
      else (replyOk reply, true)

/-- Model of the address-add step of
`MikrotikL2TPManager.configure_l2tp_server_tunnel` (and of
`configure_l2tp_client`): a rejection-marked reply fails the step unless it
contains `"already have such address"`. -/
def l2tpAddressStepOk (reply : Option String) : Bool :=
  match reply with
  | none => true
  | some out =>
    if out == "" then true
    else if isRejectionReply out then strHasSub "already have such address" (lowerStr out)
    else true

/-- Model of the route-add step of
`MikrotikL2TPManager.configure_l2tp_server_tunnel`, with the
`"already have such route"` conflict marker. -/
def l2tpRouteStepOk (reply : Option String) : Bool :=
  match reply with
  | none => true
  | some out =>
    if out == "" then true
    else if isRejectionReply out then strHasSub "already have such route" (lowerStr out)
    else true

/-- First defined value of `f` along a list; models a Python
`for`-loop that `return`s on the first hit. -/
def firstSome (f : α → Option β) : List α → Option β
  | [] => none
  | x :: xs =>
    match f x with
    | some b => some b
    | none => firstSome f xs

/-- Matcher for `re.search(r'<([^>]*l2tp[^>]*)>', line)` at the head of `cs`:
a `<`, then the run of non-`>` characters up to the first `>`, which must
contain `l2tp`. -/
def bracketAt (cs : List Char) : Option String :=
  match cs with
  | '<' :: rest =>
    let content := rest.takeWhile fun c => c != '>'
    match rest.drop content.length with
    | '>' :: _ => if strHasSub "l2tp" ⟨content⟩ then some ⟨content⟩ else none
    | _ => none
  | _ => none

/-- Leftmost search of a head matcher over all suffixes, the search scheme of
`re.search`. -/
def scanFor (f : List Char → Option α) : List Char → Option α
  | [] => f []
  | c :: cs =>
    match f (c :: cs) with
    | some v => some v
    | none => scanFor f cs

/-- Model of `re.search(r'<([^>]*l2tp[^>]*)>', line)`. -/
def extractBracketL2tp (line : String) : Option String :=
  scanFor bracketAt line.data

/-- Per-line test of `MikrotikL2TPManager._find_l2tp_tunnel_by_name`: the
desired name and `l2tp-` must occur in the lowercased line, and the bracketed
`l2tp` token is extracted from the raw line. -/
def lineTunnel (tunnel_name line : String) : Option String :=
  if strHasSub (lowerStr tunnel_name) (lowerStr line) && strHasSub "l2tp-" (lowerStr line) then
    extractBracketL2tp line
  else none

/-- Model of `MikrotikL2TPManager._find_l2tp_tunnel_by_name`, given the reply
of `/interface l2tp-server print` (`none` models an absent reply). -/
def findL2tpTunnelByName (output : Option String) (tunnel_name : String) : Option String :=
  match output with
  | none => none
  | some out =>
    if out == "" then none
    else firstSome (lineTunnel tunnel_name) (pyLines out)

/-- Character class `[DRX\s]` of the interface-line pattern in
`MikrotikInterfaces._parse_l2tp_server_output`. -/
def isFlagChar (c : Char) : Bool :=
  c == 'D' || c == 'R' || c == 'X' || c.isWhitespace

/-- Model of
`re.match(r'\s*(\d+)\s+([DRX\s]+)\s*<([^>]+)>\s+(\S+)\s+(\d+)\s+([\d\.]+)', line)`
returning the six capture groups.  The hand compilation realises the regex's
greedy semantics: each `\d+`, `\S+`, `[\d\.]+` and the `<`-delimited section
is a maximal run (every literal that follows such a group starts with a
character outside the group's class, so backtracking can never shorten them),
and the segment between the id digits and `<` must consist of `[DRX\s]` 
characters, start with whitespace and have length at least two
(`\s+[DRX\s]+\s*`); group 2 is that segment minus its maximal leading
whitespace run, or its final character when the segment is all whitespace. -/
def matchServerLine (line : String) :
    Option (String × String × String × String × String × String) :=
  let cs1 := line.data.dropWhile Char.isWhitespace
  let g1 := cs1.takeWhile Char.isDigit
  if g1.isEmpty then none
  else
    let r1 := cs1.drop g1.length
    let seg := r1.takeWhile isFlagChar
    let r2 := r1.drop seg.length
    match seg with
    | [] => none
    | c0 :: segRest =>
      if !c0.isWhitespace then none
      else if segRest.isEmpty then none
      else
        let lead := (c0 :: segRest).takeWhile Char.isWhitespace
        let tail2 := (c0 :: segRest).drop lead.length
        let g2 : List Char := if tail2.isEmpty then [(c0 :: segRest).getLastD ' '] else tail2
        match r2 with
        | '<' :: r3 =>
          let g3 := r3.takeWhile fun c => c != '>'
          if g3.isEmpty then none
          else
            match r3.drop g3.length with
            | '>' :: r4 =>
              let w1 := r4.takeWhile Char.isWhitespace
              if w1.isEmpty then none
              else
                let r5 := r4.drop w1.length
                let g4 := r5.takeWhile fun c => !c.isWhitespace
                if g4.isEmpty then none
                else
                  let r6 := r5.drop g4.length
                  let w2 := r6.takeWhile Char.isWhitespace
                  if w2.isEmpty then none
                  else
                    let r7 := r6.drop w2.length
                    let g5 := r7.takeWhile Char.isDigit
                    if g5.isEmpty then none
                    else
                      let r8 := r7.drop g5.length
                      let w3 := r8.takeWhile Char.isWhitespace
                      if w3.isEmpty then none
                      else
                        let r9 := r8.drop w3.length
                        let g6 := r9.takeWhile fun c => c.isDigit || c == '.'
                        if g6.isEmpty then none
                        else some (⟨g1⟩, ⟨g2⟩, ⟨g3⟩, ⟨g4⟩, ⟨g5⟩, ⟨g6⟩)
            | _ => none
        | _ => none

/-- Model of the interface dictionaries built by
`MikrotikInterfaces._parse_l2tp_server_output`. -/
structure IfaceRecord where
  id : String
  flags : String
  name : String
  user : String
  mtu : String
  client_address : String
  status : String
deriving DecidableEq, Repr

/-- Builds the `interface_info` dictionary from the six capture groups:
every group except the raw flag group is stripped, and `status` is derived
from the unstripped flag group. -/
def recordOfGroups (g : String × String × String × String × String × String) :
    IfaceRecord :=
  { id := pyStrip g.1
    flags := pyStrip g.2.1
    name := pyStrip g.2.2.1
    user := pyStrip g.2.2.2.1
    mtu := pyStrip g.2.2.2.2.1
    client_address := pyStrip g.2.2.2.2.2
    status := if strHasSub "R" g.2.1 then "running" else "disabled" }

/-- Header test of `_parse_l2tp_server_output`:
`'NAME' in line and 'USER' in line and 'CLIENT-ADDRESS' in line`. -/
def isServerHeaderLine (line : String) : Bool :=
  strHasSub "NAME" line && strHasSub "USER" line && strHasSub "CLIENT-ADDRESS" line

/-- Returns the lines after the first header line, or `none` when no header
line exists (`header_line == -1` in the source). -/
def linesAfterHeader : List String → Option (List String)
  | [] => none
  | l :: ls => if isServerHeaderLine l then some ls else linesAfterHeader ls

/-- Folding step over the data lines of `_parse_l2tp_server_output`: strip,
skip blank lines, match, and keep only records whose stripped flag group
contains `R`. -/
def serverLineStep (acc : List IfaceRecord) (line : String) : List IfaceRecord :=
  let l := pyStrip line
  if l == "" then acc
  else
    match matchServerLine l with
    | none => acc
    | some g =>
      let r := recordOfGroups g
      if strHasSub "R" r.flags then acc ++ [r] else acc

/-- Model of `MikrotikInterfaces._parse_l2tp_server_output`. -/
def parseL2tpServerOutput (output : String) : List IfaceRecord :=
  match linesAfterHeader (pyLines output) with
  | none => []
  | some rest => rest.foldl serverLineStep []

/-- Digit run to a natural number, `int(...)` on a regex digit group. -/
def digitsToNat (ds : List Char) : Nat :=
  ds.foldl (fun a c => a * 10 + (c.toNat - 48)) 0

/-- Value of an integer digit group with an optional fraction group;
`Rat` model of Python `float(group)` (exact for decimal literals).  The
fractionless case is written without an addition so that it reduces to the
integer's rational embedding. -/
def decimalVal (ip fp : List Char) : Rat :=
  if fp.isEmpty then (digitsToNat ip : Rat)
  else (digitsToNat ip : Rat) + (digitsToNat fp : Rat) / ((10 : Rat) ^ fp.length)

/-- Consumes the literal `lit` at the head of `cs`. -/
def dropLit (lit cs : List Char) : Option (List Char) :=
  if isPre lit cs then some (cs.drop lit.length) else none

/-- Matches `(\d+(?:\.\d+)?)` followed by the literal `lit`, returning the
captured value and the rest.  Faithful to the regex for every literal used
here (all start with a character that is neither a digit nor `.`, so greedy
runs admit no backtracking). -/
def numThenLit (lit cs : List Char) : Option (Rat × List Char) :=
  let d := cs.takeWhile Char.isDigit
  let rest := cs.drop d.length
  if d.isEmpty then none
  else
    match rest with
    | '.' :: rest2 =>
      let f := rest2.takeWhile Char.isDigit
      let rest3 := rest2.drop f.length
      if f.isEmpty then none
      else
        match dropLit lit rest3 with
        | some r => some (decimalVal d f, r)
        | none => none
    | _ =>
      match dropLit lit rest with
      | some r => some (decimalVal d [], r)
      | none => none

/-- Head matcher for `re.search(r'time=(\d+(?:\.\d+)?)ms', line)`. -/
def timeMsAt (cs : List Char) : Option Rat :=
  match dropLit "time=".data cs with
  | none => none
  | some r => (numThenLit "ms".data r).map Prod.fst

/-- Head matcher for
`re.search(r'(\d+) packets transmitted, (\d+) received, (\d+)% packet loss', line)`. -/
def statsAt (cs : List Char) : Option (Nat × Nat × Nat) :=
  let d1 := cs.takeWhile Char.isDigit
  if d1.isEmpty then none
  else
    match dropLit " packets transmitted, ".data (cs.drop d1.length) with
    | none => none
    | some r2 =>
      let d2 := r2.takeWhile Char.isDigit
      if d2.isEmpty then none
      else
        match dropLit " received, ".data (r2.drop d2.length) with
        | none => none
        | some r4 =>
          let d3 := r4.takeWhile Char.isDigit
          if d3.isEmpty then none
          else
            match dropLit "% packet loss".data (r4.drop d3.length) with
            | none => none
            | some _ => some (digitsToNat d1, digitsToNat d2, digitsToNat d3)

/-- Head matcher for
`re.search(r'min/avg/max = (\d+(?:\.\d+)?)/(\d+(?:\.\d+)?)/(\d+(?:\.\d+)?) ms', line)`. -/
def roundTripAt (cs : List Char) : Option (Rat × Rat × Rat) :=
  match dropLit "min/avg/max = ".data cs with
  | none => none
  | some r1 =>
    match numThenLit "/".data r1 with
    | none => none
    | some (mn, r2) =>
      match numThenLit "/".data r2 with
      | none => none
      | some (av, r3) =>
        match numThenLit " ms".data r3 with
        | none => none
        | some (mx, _) => some (mn, av, mx)

/-- Model of the result dictionary of
`MikrotikConnectivityTests._parse_ping_output`. -/
structure PingRecord where
  target : String
  success : Bool
  packets_sent : Nat
  packets_received : Nat
  packet_loss_percent : Rat
  avg_time_ms : Rat
  min_time_ms : Rat
  max_time_ms : Rat
  times : List Rat
  raw_output : String
deriving DecidableEq, Repr

/-- Initial value of the result dictionary in `_parse_ping_output`. -/
def initPing (output target : String) : PingRecord :=
  { target := target
    success := false
    packets_sent := 0
    packets_received := 0
    packet_loss_percent := 100
    avg_time_ms := 0
    min_time_ms := 0
    max_time_ms := 0
    times := []
    raw_output := output }

/-- Summary-line pass of `_parse_ping_output`: the transmitted/received/loss
line and the round-trip min/avg/max line, later lines overriding earlier
ones. -/
def pingSummaryStep (r : PingRecord) (line : String) : PingRecord :=
  let r1 :=
    if strHasSub "packets transmitted" line then
      match scanFor statsAt line.data with
      | some (s, rcv, loss) =>
        { r with
          packets_sent := s
          packets_received := rcv
          packet_loss_percent := (loss : Rat)
          success := decide (loss < 100) }
      | none => r
    else r
  if strHasSub "round-trip" line && strHasSub "min/avg/max" line then
    match scanFor roundTripAt line.data with
    | some (mn, av, mx) =>
      { r1 with min_time_ms := mn, avg_time_ms := av, max_time_ms := mx }
    | none => r1
  else r1

/-- Python `min` over a non-empty list (`0` is never used: the only call site
guards non-emptiness). -/
def listMinR : List Rat → Rat
  | [] => 0
  | x :: xs => xs.foldl min x

/-- Python `max` over a non-empty list. -/
def listMaxR : List Rat → Rat
  | [] => 0
  | x :: xs => xs.foldl max x

/-- Python `sum`. -/
def sumR (l : List Rat) : Rat :=
  l.foldl (· + ·) 0

/-- Per-packet pass of `_parse_ping_output`: lines containing `time=` and
`bytes from` contribute their first `time=<n>ms` value. -/
def pingTimesOf (lines : List String) : List Rat :=
  lines.foldl
    (fun acc line =>
      if strHasSub "time=" line && strHasSub "bytes from" line then
        match scanFor timeMsAt line.data with
        | some t => acc ++ [t]
        | none => acc
      else acc) []

/-- Model of `MikrotikConnectivityTests._parse_ping_output`.  The fallback
branch divides by `result.get('packets_sent', 4)`; that key is initialised to
`0` and still `0` when no summary line parsed, so the division raises
`ZeroDivisionError`, modelled as `Except.error "division by zero"`. -/
def parsePingOutput (output target : String) : Except String PingRecord :=
  let lines := pyLines output
  let ping_times := pingTimesOf lines
  let r := lines.foldl pingSummaryStep (initPing output target)
  if !ping_times.isEmpty && r.avg_time_ms == 0 then
    if r.packets_sent == 0 then Except.error "division by zero"
    else
      Except.ok
        { r with
          times := ping_times
          min_time_ms := listMinR ping_times
          max_time_ms := listMaxR ping_times
          avg_time_ms := sumR ping_times / (ping_times.length : Rat)
          packets_received := ping_times.length
          packet_loss_percent :=
            max 0 (100 - ((ping_times.length : Rat) / (r.packets_sent : Rat) * 100))
          success := decide (0 < ping_times.length) }
  else Except.ok r

/-- Candidate sizes of `MikrotikConnectivityTests._test_mtu_ipv6`. -/
def mtuSizes : List Nat := [1280, 1300, 1400, 1500, 1600, 1700, 1800, 1900, 2000]

/-- Per-size response test of `_test_mtu_ipv6`:
`if output and ('time=' in output or 'received' in output)`, over the reply
the transport gives for that probe size. -/
def mtuResponds (exec : Nat → Option String) (size : Nat) : Bool :=
  match exec size with
  | none => false
  | some out =>
    if out == "" then false
    else strHasSub "time=" out || strHasSub "received" out

/-- Probe loop of `_test_mtu_ipv6`: walks the candidate list, keeping the last
responding size in the accumulator and breaking at the first failure.  The
second component records the sizes actually probed. -/
def mtuScan (responds : Nat → Bool) : List Nat → Nat → Nat × List Nat
  | [], acc => (acc, [])
  | s :: rest, acc =>
    if responds s then
      let r := mtuScan responds rest s
      (r.1, s :: r.2)
    else (acc, [s])

/-- Result dictionary of `_test_mtu_ipv6`. -/
structure MtuResult where
  max_mtu : Nat
  recommended_mtu : Nat
  tested_sizes : List Nat
deriving DecidableEq, Repr

/-- Model of `mtu_sizes[:mtu_sizes.index(x) + 1]`: the prefix of the list up
to and including the first occurrence of `x`. -/
def takeToIncl (x : Nat) : List Nat → List Nat
  | [] => []
  | a :: rest => if a == x then [a] else a :: takeToIncl x rest

/-- Model of `MikrotikConnectivityTests._test_mtu_ipv6`, parameterised by the
transport replies per probe size. -/
def testMtuIpv6 (exec : Nat → Option String) : MtuResult :=
  let m := (mtuScan (mtuResponds exec) mtuSizes 0).1
  { max_mtu := m
    recommended_mtu := if m > 20 then m - 20 else m
    tested_sizes := if m > 0 then takeToIncl m mtuSizes else [] }

/-- Sizes for which `_test_mtu_ipv6` actually sent a probe command. -/
def mtuProbedSizes (exec : Nat → Option String) : List Nat :=
  (mtuScan (mtuResponds exec) mtuSizes 0).2

/-- Model of one value of the tunnel-mapping dictionary built by
`load_tunnel_mapping` in `mikrotik_l2tp_automation.py`. -/
structure TunnelConfig where
  client_hostname : String
  server_ip : String
  client_ip : String
  route_network : String
  gateway : String
deriving DecidableEq, Repr

/-- Insertion-ordered dictionary update: `mappings[tunnel_name] = {...}`. -/
def upsert : List (String × TunnelConfig) → String → TunnelConfig →
    List (String × TunnelConfig)
  | [], k, v => [(k, v)]
  | (k0, v0) :: rest, k, v =>
    if k0 == k then (k0, v) :: rest else (k0, v0) :: upsert rest k v

/-- One loop iteration of `load_tunnel_mapping`: strip the line, skip blanks
and `#` comments, skip lines that do not split into exactly six
comma-separated fields, and otherwise store the stripped fields under the
stripped tunnel name. -/
def processTunnelLine (m : List (String × TunnelConfig)) (rawLine : String) :
    List (String × TunnelConfig) :=
  let line := pyStrip rawLine
  if line == "" || startsHash line then m
  else
    let parts := pySplitComma line
    if parts.length == 6 then
      upsert m (pyStrip (parts.getD 0 ""))
        { client_hostname := pyStrip (parts.getD 1 "")
          server_ip := pyStrip (parts.getD 2 "")
          client_ip := pyStrip (parts.getD 3 "")
          route_network := pyStrip (parts.getD 4 "")
          gateway := pyStrip (parts.getD 5 "") }
    else m

/-- Model of `load_tunnel_mapping` in `mikrotik_l2tp_automation.py`, over the
file's content. -/
def loadTunnelMapping (content : String) : List (String × TunnelConfig) :=
  (pyLines content).foldl processTunnelLine []

/-- A line that `load_tunnel_mapping` turns into a mapping entry: non-blank
after stripping, no `#` comment, exactly six comma-separated fields. -/
def isWellFormedTunnelLine (rawLine : String) : Bool :=
  let line := pyStrip rawLine
  !(line == "") && !startsHash line && (pySplitComma line).length == 6

/-- The dictionary key a well-formed line is stored under. -/
def tunnelKeyOf (rawLine : String) : String :=
  pyStrip ((pySplitComma (pyStrip rawLine)).getD 0 "")

/-- Appends a key unless already present; the key-set effect of one dictionary
store. -/
def insertKey (ks : List String) (k : String) : List String :=
  if ks.any (fun x => x == k) then ks else ks ++ [k]

/-- First-occurrence deduplication of a key list: the key sequence a Python
dict ends up with after storing each key in order. -/
def firstDedup (keys : List String) : List String :=
  keys.foldl insertKey []

/-- Last element of a list, with a fallback for the empty list. -/
def lastD (l : List Nat) (d : Nat) : Nat :=
  match l with
  | [] => d
  | a :: rest => lastD rest a

theorem isPre_append {p l : List Char} (t : List Char) (h : isPre p l = true) :
    isPre p (l ++ t) = true := by
  induction p generalizing l with
  | nil => simp [isPre]
  | cons a ps ih =>
    cases l with
    | nil => simp [isPre] at h
    | cons c cs =>
      simp only [isPre, Bool.and_eq_true] at h ⊢
      exact ⟨h.1, ih h.2⟩

theorem subMatch_nil_pat (l : List Char) : subMatch [] l = true := by
  induction l with
  | nil => rfl
  | cons c cs ih => simp [subMatch, isPre, ih]

theorem subMatch_append_right {p l : List Char} (t : List Char)
    (h : subMatch p l = true) : subMatch p (l ++ t) = true := by
  induction l with
  | nil =>
    simp only [subMatch] at h
    cases p with
    | nil => simpa using subMatch_nil_pat t
    | cons a ps => simp [isPre] at h
  | cons c cs ih =>
    simp only [subMatch, Bool.or_eq_true] at h ⊢
    rcases h with h | h
    · exact Or.inl (isPre_append t h)
    · exact Or.inr (ih h)

theorem subMatch_append_left {p l : List Char} (t : List Char)
    (h : subMatch p l = true) : subMatch p (t ++ l) = true := by
  induction t with
  | nil => simpa using h
  | cons c cs ih =>
    simp only [List.cons_append, subMatch, Bool.or_eq_true]
    exact Or.inr ih

theorem dropTrailWs_decomp (m : List Char) :
    m = dropTrailWs m ++ (m.reverse.takeWhile Char.isWhitespace).reverse := by
  conv_lhs =>
    rw [← List.reverse_reverse m,
      ← List.takeWhile_append_dropWhile Char.isWhitespace m.reverse]
  rw [List.reverse_append, dropTrailWs]

theorem stripList_decomp (l : List Char) :
    ∃ a b, l = a ++ stripList l ++ b := by
  refine ⟨l.takeWhile Char.isWhitespace,
    ((l.dropWhile Char.isWhitespace).reverse.takeWhile Char.isWhitespace).reverse, ?_⟩
  conv_lhs => rw [← List.takeWhile_append_dropWhile Char.isWhitespace l]
  rw [List.append_assoc]
  congr 1
  exact dropTrailWs_decomp (l.dropWhile Char.isWhitespace)

theorem strHasSub_of_pyStrip {p s : String}
    (h : strHasSub p (pyStrip s) = true) : strHasSub p s = true := by
  have h' : subMatch p.data (stripList s.data) = true := h
  obtain ⟨a, b, hab⟩ := stripList_decomp s.data
  have : subMatch p.data (a ++ stripList s.data ++ b) = true := by
    rw [List.append_assoc]
    exact subMatch_append_left a (subMatch_append_right b h')
  unfold strHasSub
  rw [hab, List.append_assoc]
  rw [List.append_assoc] at this
  exact this

theorem mtuScan_fst (responds : Nat → Bool) :
    ∀ (l : List Nat) (acc : Nat),
      (mtuScan responds l acc).1 = lastD (l.takeWhile responds) acc := by
  intro l
  induction l with
  | nil => intro acc; simp [mtuScan, List.takeWhile, lastD]
  | cons s rest ih =>
    intro acc
    by_cases h : responds s = true
    · simp [mtuScan, List.takeWhile, h, lastD, ih]
    · simp only [Bool.not_eq_true] at h
      simp [mtuScan, List.takeWhile, h, lastD]

theorem mtuScan_snd (responds : Nat → Bool) :
    ∀ (l : List Nat) (acc : Nat),
      (mtuScan responds l acc).2
        = l.takeWhile responds ++ (l.dropWhile responds).take 1 := by
  intro l
  induction l with
  | nil => intro acc; simp [mtuScan]
  | cons s rest ih =>
    intro acc
    by_cases h : responds s = true
    · simp [mtuScan, List.takeWhile, List.dropWhile, h, ih]
    · simp only [Bool.not_eq_true] at h
      simp [mtuScan, List.takeWhile, List.dropWhile, h]

/-- C2 (amended): the MTU probe walks `mtuSizes` in ascending order, halting
with the first size that yields no response: the sizes actually probed are the
responding front of the candidate list plus the first failing size (when one
exists), and the reported maximum is the last responding size of that front
(`0` when even 1280 fails) — in particular never larger than any size
probed.  In the scenario where 1280 and 1300 respond and 1400 fails, the
result has `max_mtu = 1300` and `recommended_mtu = 1280`, but the reported
`tested_sizes` list is `[1280, 1300]` — the prefix up to the last responding
size — not `[1280, 1300, 1400]` as claimed: `mtu_sizes[:index(max)+1]`
excludes the failing probe. -/
theorem c2_mtu_probe (exec : Nat → Option String) :
    (testMtuIpv6 exec).max_mtu = lastD (mtuSizes.takeWhile (mtuResponds exec)) 0
    ∧ mtuProbedSizes exec
        = mtuSizes.takeWhile (mtuResponds exec)
          ++ (mtuSizes.dropWhile (mtuResponds exec)).take 1
    ∧ testMtuIpv6 (fun s => if s < 1400 then some "time=1ms reply" else none)
        = { max_mtu := 1300, recommended_mtu := 1280, tested_sizes := [1280, 1300] }
    ∧ mtuProbedSizes (fun s => if s < 1400 then some "time=1ms reply" else none)
        = [1280, 1300, 1400] := by
  refine ⟨?_, ?_, by decide, by decide⟩
  · simp [testMtuIpv6, mtuScan_fst]
  · simp [mtuProbedSizes, mtuScan_snd]

/-- C2 witness: the amended theorem applied to the concrete responder of the
scenario. -/
theorem c2_mtu_probe_witness :
    testMtuIpv6 (fun s => if s < 1400 then some "time=1ms reply" else none)
      = { max_mtu := 1300, recommended_mtu := 1280, tested_sizes := [1280, 1300] } :=
  (c2_mtu_probe (fun s => if s < 1400 then some "time=1ms reply" else none)).2.2.1

/-- C2 counterexample: with 1280 and 1300 responding and 1400 failing, the
code reports `max_mtu = 1300` and `recommended_mtu = 1280` as the claim says,
but `tested_sizes = [1280, 1300]`, not the claimed `[1280, 1300, 1400]`. -/
theorem c2_counterexample :
    (testMtuIpv6 (fun s => if s < 1400 then some "time=1ms reply" else none)).max_mtu = 1300
    ∧ (testMtuIpv6 (fun s => if s < 1400 then some "time=1ms reply" else none)).recommended_mtu
        = 1280
    ∧ (testMtuIpv6 (fun s => if s < 1400 then some "time=1ms reply" else none)).tested_sizes
        ≠ [1280, 1300, 1400] := by
  decide

/-- C3: when an address with the same host part (prefix length ignored)
already exists among the listed addresses of the target interface,
`add_ipv6_address` returns success and issues no add command. -/
theorem c3_skip_existing_address (existing : List AddrEntry) (address : String)
    (reply : Option String) (h : addressExists existing address = true) :
    addIpv6Address true existing address reply = (true, false) := by
  simp [addIpv6Address, h]

/-- C3 witness: a /64 entry makes adding the same host as /126 a skip. -/
theorem c3_skip_existing_address_witness :
    addressExists [⟨"0", "2001:db8::1/64"⟩] "2001:db8::1/126" = true ∧
    addIpv6Address true [⟨"0", "2001:db8::1/64"⟩] "2001:db8::1/126"
      (some "unused reply") = (true, false) :=
  ⟨by decide, c3_skip_existing_address _ _ _ (by decide)⟩

/-- C10: removing an address whose host part is not among the listed
addresses, or a route whose destination (and gateway, when given) is not among
the listed routes, issues no remove command and returns success. -/
theorem c10_remove_missing_is_success (existing : List AddrEntry) (address : String)
    (reply : Option String) (routes : List RouteEntry) (dst : String)
    (gateway : Option String) (reply2 : Option String)
    (ha : findAddressId existing address = none)
    (hr : findRouteId routes dst gateway = none) :
    removeIpv6Address true existing address reply = (true, false)
    ∧ removeIpv6Route true routes dst gateway reply2 = (true, false) := by
  constructor
  · simp [removeIpv6Address, ha]
  · simp [removeIpv6Route, hr]

/-- C10 witness: concrete miss for both the address and the route removal. -/
theorem c10_remove_missing_is_success_witness :
    removeIpv6Address true [⟨"1", "2001:db8::2/64"⟩] "2001:db8::3/126"
      (some "unused") = (true, false)
    ∧ removeIpv6Route true [⟨"1", "::/0", "fe80::1"⟩] "2001:db8::/64" none
      (some "unused") = (true, false) :=
  c10_remove_missing_is_success _ _ _ _ _ _ _ (by decide) (by decide)

/-- C1 counterexample: the reply `"failure: already have such address"`
contains the idempotent-conflict marker, yet `add_ipv6_address` classifies it
as a failure (returns `False`), because that function checks only the
rejection markers. -/
theorem c1_counterexample :
    strHasSub "already have such address"
      (lowerStr "failure: already have such address") = true
    ∧ (addIpv6Address true [] "2001:db8::1/126"
        (some "failure: already have such address")).1 = false := by
  decide

/-- C1 (amended): for the L2TP manager's address step the claimed
classification holds — a rejection-marked reply without the conflict marker
fails the step, and any reply containing the conflict marker is treated as
success; in `add_ipv6_address` of `mikrotik_ipv6_config.py`, however, every
rejection-marked reply is a failure, whether or not it also contains the
conflict marker. -/
theorem c1_reply_classification (out addr : String) (hne : (out == "") = false) :
    (isRejectionReply out = true →
        strHasSub "already have such address" (lowerStr out) = false →
        l2tpAddressStepOk (some out) = false)
    ∧ (strHasSub "already have such address" (lowerStr out) = true →
        l2tpAddressStepOk (some out) = true)
    ∧ (isRejectionReply out = true →
        (addIpv6Address true [] addr (some out)).1 = false) := by
  refine ⟨?_, ?_, ?_⟩
  · intro h1 h2
    simp [l2tpAddressStepOk, hne, h1, h2]
  · intro h1
    by_cases hrej : isRejectionReply out = true
    · simp [l2tpAddressStepOk, hne, hrej, h1]
    · simp only [Bool.not_eq_true] at hrej
      simp [l2tpAddressStepOk, hne, hrej]
  · intro h1
    simp [addIpv6Address, addressExists, replyOk, hne, h1]

/-- C1 witness: the rejection reply `"syntax error"` fails both paths; the
conflict reply succeeds in the L2TP step. -/
theorem c1_reply_classification_witness :
    l2tpAddressStepOk (some "syntax error") = false
    ∧ l2tpAddressStepOk (some "failure: already have such address") = true
    ∧ (addIpv6Address true [] "2001:db8::1/126" (some "syntax error")).1 = false :=
  ⟨(c1_reply_classification "syntax error" "2001:db8::1/126" (by decide)).1
      (by decide) (by decide),
   (c1_reply_classification "failure: already have such address" "2001:db8::1/126"
      (by decide)).2.1 (by decide),
   (c1_reply_classification "syntax error" "2001:db8::1/126" (by decide)).2.2
      (by decide)⟩

/-- C4 (code bug): the interface parser is total and returns the empty list
whenever no header line is present, as the claim states; but the ping parser
is not exception-free: on input consisting only of per-packet lines its
fallback divides by `result.get('packets_sent', 4)`, whose key was
initialised to `0`, raising `ZeroDivisionError` instead of returning a
record. -/
theorem c4_parser_totality :
    (∀ output : String, linesAfterHeader (pyLines output) = none →
        parseL2tpServerOutput output = [])
    ∧ parsePingOutput "64 bytes from 2001:db8::1: icmp_seq=1 ttl=64 time=5ms"
        "2001:db8::1" = Except.error "division by zero" := by
  constructor
  · intro output h
    simp [parseL2tpServerOutput, h]
  · rfl

/-- C4 witness: headerless text parses to the empty list. -/
theorem c4_parser_totality_witness :
    parseL2tpServerOutput "no header here" = [] :=
  c4_parser_totality.1 "no header here" (by decide)

/-- C5 (code bug): on ping output with only per-packet lines carrying 12ms,
14ms and 10ms, the claim expects avg 12.0, min 10, max 14 and success; the
code instead reaches `len(ping_times) / result.get('packets_sent', 4)` with
`packets_sent` still `0` and raises `ZeroDivisionError`, so no such record is
produced. -/
theorem c5_per_packet_fallback_raises :
    parsePingOutput
      "64 bytes from 2001:db8::10: icmp_seq=1 ttl=64 time=12ms\n64 bytes from 2001:db8::10: icmp_seq=2 ttl=64 time=14ms\n64 bytes from 2001:db8::10: icmp_seq=3 ttl=64 time=10ms"
      "2001:db8::10" = Except.error "division by zero" := by
  rfl

/-- C6: parsing the summary line `4 packets transmitted, 4 received, 0%
packet loss` together with `round-trip min/avg/max = 15/15/16 ms` yields
exactly the claimed record: 4 sent, 4 received, 0% loss, success, min 15,
avg 15, max 16. -/
theorem c6_ping_summary :
    parsePingOutput
      "4 packets transmitted, 4 received, 0% packet loss\nround-trip min/avg/max = 15/15/16 ms"
      "2001:db8::1"
      = Except.ok
          { target := "2001:db8::1"
            success := true
            packets_sent := 4
            packets_received := 4
            packet_loss_percent := 0
            avg_time_ms := 15
            min_time_ms := 15
            max_time_ms := 16
            times := []
            raw_output := "4 packets transmitted, 4 received, 0% packet loss\nround-trip min/avg/max = 15/15/16 ms" } := by
  rfl

/-- C7: tunnel lookup matches the lowercased desired name against each
lowercased candidate line, requires an `l2tp-` marker, extracts the bracketed
interface token, and the first line that yields a token wins; `"Caetite"`
finds the interface of a line containing `caetite`, and an uppercase query
still matches a lowercase line, the first of two matching lines winning. -/
theorem c7_tunnel_lookup (name l iface : String) (ls : List String)
    (h : lineTunnel name l = some iface) :
    (∀ out : String, (out == "") = false → pyLines out = l :: ls →
        findL2tpTunnelByName (some out) name = some iface)
    ∧ firstSome (lineTunnel name) (l :: ls) = some iface
    ∧ findL2tpTunnelByName
        (some "Flags: X - disabled\n 0  R  <l2tp-caetite>  caetite  1450  10.0.0.5")
        "Caetite" = some "l2tp-caetite"
    ∧ findL2tpTunnelByName
        (some " 0 R <l2tp-alpha> a 1450 10.0.0.1\n 1 R <l2tp-beta> alpha 1450 10.0.0.2")
        "ALPHA" = some "l2tp-alpha" := by
  refine ⟨?_, ?_, by decide, by decide⟩
  · intro out hne hl
    simp [findL2tpTunnelByName, hne, hl, firstSome, h]
  · simp [firstSome, h]

/-- C7 witness: lookup applied to the matching first line. -/
theorem c7_tunnel_lookup_witness :
    firstSome (lineTunnel "Caetite")
      [" 0  R  <l2tp-caetite>  caetite  1450  10.0.0.5"] = some "l2tp-caetite" :=
  (c7_tunnel_lookup "Caetite" " 0  R  <l2tp-caetite>  caetite  1450  10.0.0.5"
    "l2tp-caetite" [] (by decide)).2.1

theorem serverLineStep_inv (acc : List IfaceRecord) (l : String)
    (hacc : ∀ x ∈ acc, strHasSub "R" x.flags = true ∧ x.status = "running") :
    ∀ y ∈ serverLineStep acc l,
      strHasSub "R" y.flags = true ∧ y.status = "running" := by
  intro y hy
  simp only [serverLineStep] at hy
  split at hy
  · exact hacc y hy
  · split at hy
    · exact hacc y hy
    next g heq =>
      split at hy
      next hr =>
        rcases List.mem_append.mp hy with h | h
        · exact hacc y h
        · have hyr : y = recordOfGroups g := List.mem_singleton.mp h
          subst hyr
          refine ⟨hr, ?_⟩
          have : strHasSub "R" g.2.1 = true :=
            strHasSub_of_pyStrip (p := "R") (s := g.2.1) hr
          simp [recordOfGroups, this]
      · exact hacc y hy

theorem serverFold_inv :
    ∀ (lines : List String) (acc : List IfaceRecord),
      (∀ x ∈ acc, strHasSub "R" x.flags = true ∧ x.status = "running") →
      ∀ y ∈ lines.foldl serverLineStep acc,
        strHasSub "R" y.flags = true ∧ y.status = "running" := by
  intro lines
  induction lines with
  | nil => intro acc hacc y hy; exact hacc y hy
  | cons l ls ih =>
    intro acc hacc y hy
    exact ih (serverLineStep acc l) (serverLineStep_inv acc l hacc) y hy

/-- C9: every record the L2TP server interface parser returns carries the
running flag `R` in its flag set and status `"running"`; non-running
interfaces are filtered out rather than returned with another status. -/
theorem c9_running_only (output : String) (r : IfaceRecord)
    (h : r ∈ parseL2tpServerOutput output) :
    strHasSub "R" r.flags = true ∧ r.status = "running" := by
  unfold parseL2tpServerOutput at h
  split at h
  · exact absurd h (List.not_mem_nil r)
  · exact serverFold_inv _ [] (by intro x hx; exact absurd hx (List.not_mem_nil x)) r h

/-- C9 witness: a two-line listing with one running and one disabled entry
yields only the running record. -/
theorem c9_running_only_witness :
    strHasSub "R"
      ({ id := "0", flags := "R", name := "l2tp-a", user := "bob", mtu := "1450",
         client_address := "10.0.0.1", status := "running" } : IfaceRecord).flags = true
    ∧ ({ id := "0", flags := "R", name := "l2tp-a", user := "bob", mtu := "1450",
         client_address := "10.0.0.1", status := "running" } : IfaceRecord).status
        = "running" :=
  c9_running_only
    "Flags: R - running\n #  NAME  USER  MTU  CLIENT-ADDRESS\n 0  R  <l2tp-a> bob 1450 10.0.0.1\n 1  X  <l2tp-b> alice 1450 10.0.0.2"
    ⟨"0", "R", "l2tp-a", "bob", "1450", "10.0.0.1", "running"⟩ (by decide)

/-- The value a well-formed line is stored under in `load_tunnel_mapping`. -/
def tunnelValOf (rawLine : String) : TunnelConfig :=
  let parts := pySplitComma (pyStrip rawLine)
  { client_hostname := pyStrip (parts.getD 1 "")
    server_ip := pyStrip (parts.getD 2 "")
    client_ip := pyStrip (parts.getD 3 "")
    route_network := pyStrip (parts.getD 4 "")
    gateway := pyStrip (parts.getD 5 "") }

theorem insertKey_cons (k0 : String) (ks : List String) (k : String) :
    insertKey (k0 :: ks) k = if k0 == k then k0 :: ks else k0 :: insertKey ks k := by
  unfold insertKey
  simp only [List.any_cons]
  by_cases h : (k0 == k) = true
  · simp [h]
  · simp only [Bool.not_eq_true] at h
    by_cases h2 : ks.any (fun x => x == k) = true
    · simp [h, h2]
    · simp only [Bool.not_eq_true] at h2
      simp [h, h2]

theorem upsert_keys (m : List (String × TunnelConfig)) (k : String) (v : TunnelConfig) :
    (upsert m k v).map Prod.fst = insertKey (m.map Prod.fst) k := by
  induction m with
  | nil => simp [upsert, insertKey]
  | cons p rest ih =>
    obtain ⟨k0, v0⟩ := p
    by_cases h : (k0 == k) = true
    · simp [upsert, h, insertKey_cons]
    · simp only [Bool.not_eq_true] at h
      simp [upsert, h, insertKey_cons, ih]

theorem processTunnelLine_not_wf (m : List (String × TunnelConfig)) (l : String)
    (h : isWellFormedTunnelLine l = false) : processTunnelLine m l = m := by
  by_cases h0 : pyStrip l = ""
  · simp [processTunnelLine, h0]
  · by_cases h1 : startsHash (pyStrip l) = true
    · simp [processTunnelLine, h1]
    · have h1' : startsHash (pyStrip l) = false := by
        cases hb : startsHash (pyStrip l) with
        | true => exact absurd hb h1
        | false => rfl
      have hlen : ¬(pySplitComma (pyStrip l)).length = 6 := by
        intro hc
        simp [isWellFormedTunnelLine, h0, h1', hc] at h
      simp [processTunnelLine, h0, h1', hlen]

theorem processTunnelLine_wf (m : List (String × TunnelConfig)) (l : String)
    (h : isWellFormedTunnelLine l = true) :
    processTunnelLine m l = upsert m (tunnelKeyOf l) (tunnelValOf l) := by
  simp only [isWellFormedTunnelLine, Bool.and_eq_true, Bool.not_eq_true'] at h
  obtain ⟨⟨h0, h1⟩, h2⟩ := h
  simp [processTunnelLine, h0, h1, h2, tunnelKeyOf, tunnelValOf]

theorem foldl_process_filter :
    ∀ (lines : List String) (m : List (String × TunnelConfig)),
      lines.foldl processTunnelLine m
        = (lines.filter isWellFormedTunnelLine).foldl processTunnelLine m := by
  intro lines
  induction lines with
  | nil => intro m; rfl
  | cons l ls ih =>
    intro m
    by_cases h : isWellFormedTunnelLine l = true
    · simp [List.filter_cons, h, List.foldl_cons, ih]
    · simp only [Bool.not_eq_true] at h
      simp [List.filter_cons, h, List.foldl_cons, ih, processTunnelLine_not_wf m l h]

theorem foldl_process_keys :
    ∀ (lines : List String) (m : List (String × TunnelConfig)),
      (lines.foldl processTunnelLine m).map Prod.fst
        = ((lines.filter isWellFormedTunnelLine).map tunnelKeyOf).foldl insertKey
            (m.map Prod.fst) := by
  intro lines
  induction lines with
  | nil => intro m; rfl
  | cons l ls ih =>
    intro m
    by_cases h : isWellFormedTunnelLine l = true
    · simp only [List.foldl_cons, List.filter_cons, h, if_true, List.map_cons,
        processTunnelLine_wf m l h, ih, upsert_keys]
    · simp only [Bool.not_eq_true] at h
      simp only [List.foldl_cons, List.filter_cons, h, Bool.false_eq_true, if_false,
        processTunnelLine_not_wf m l h, ih]

/-- C8 (amended): `load_tunnel_mapping` skips lines without exactly six
comma-separated fields (the result is a function of the well-formed lines
alone), and the count of loaded mappings equals the number of distinct tunnel
names among the well-formed lines — a dictionary keyed by tunnel name
collapses duplicate names, so the count is below the number of well-formed
lines exactly when two such lines share a tunnel name, and never otherwise. -/
theorem c8_tunnel_mapping_count (content : String) :
    loadTunnelMapping content
        = ((pyLines content).filter isWellFormedTunnelLine).foldl processTunnelLine []
    ∧ (loadTunnelMapping content).map Prod.fst
        = firstDedup (((pyLines content).filter isWellFormedTunnelLine).map tunnelKeyOf)
    ∧ (loadTunnelMapping content).length
        = (firstDedup (((pyLines content).filter isWellFormedTunnelLine).map
            tunnelKeyOf)).length := by
  have h2 : (loadTunnelMapping content).map Prod.fst
      = firstDedup (((pyLines content).filter isWellFormedTunnelLine).map tunnelKeyOf) := by
    rw [loadTunnelMapping, foldl_process_keys]
    rfl
  refine ⟨foldl_process_filter _ _, h2, ?_⟩
  calc (loadTunnelMapping content).length
      = ((loadTunnelMapping content).map Prod.fst).length := (List.length_map _ _).symm
    _ = _ := by rw [h2]

/-- C8 counterexample: two well-formed lines sharing the tunnel name `a`
load only one mapping, so the count of loaded mappings (1) is below the
number of well-formed lines (2). -/
theorem c8_counterexample :
    (loadTunnelMapping "a,b,c,d,e,f\na,g,h,i,j,k").length
      < (((pyLines "a,b,c,d,e,f\na,g,h,i,j,k").filter isWellFormedTunnelLine)).length := by
  decide
